import Mathlib

/-!
Verification of the record-reconciliation and document-assembly pipeline
(`src/app.py`): identifier extraction from a spreadsheet, prefix matching of
uploaded files against identifiers, in-memory PDF merging, and the missing
report. Library-level behaviour (pandas parsing, the pypdf codec, wall-clock
time) is modelled as explicit data/parameters; the pipeline logic itself is
translated statement by statement from the source.
-/

deriving instance DecidableEq for Except

namespace FerpaApp

/-- A page of a decoded document, identified by its content. -/
abbrev Page := Nat

/-- In-memory bytes of an uploaded candidate file, abstracted by how the PDF
codec reacts to them: they decode to a list of pages, raise the codec's
malformed-file error (pypdf `PdfReadError`), or raise some other exception
carrying a message. -/
inductive PdfBytes where
  | valid (pages : List Page)
  | corrupt
  | failsWith (msg : String)
  deriving DecidableEq, Inhabited

/-- The exception raised by a failed decode: pypdf's `PdfReadError`, or any
other exception with its message. -/
inductive PdfError where
  | pdfReadError
  | otherError (msg : String)
  deriving DecidableEq

/-- Outcome of `PdfReader(BytesIO(pdf_bytes)).pages`: the decoded page list,
or the exception the decode raised. -/
def PdfReader_pages : PdfBytes → Except PdfError (List Page)
  | .valid pages => .ok pages
  | .corrupt => .error .pdfReadError
  | .failsWith msg => .error (.otherError msg)

/-- The serialized output of `writer.write`: the accumulated pages together
with serialization metadata (producer fields, timestamps, ...) that depends on
the moment of the run rather than on the input items. -/
structure SerializedPdf where
  metadata : Nat
  pages : List Page
  deriving DecidableEq

/-- The loop state of `merge_pdfs_in_memory` (src/app.py lines 80-82):
the writer's accumulated pages, the success counter, and the error list. -/
structure MergeAcc where
  writer : List Page
  successful : Nat
  errors : List String
  deriving DecidableEq

/-- One iteration of the loop in `merge_pdfs_in_memory`
(src/app.py lines 84-93). -/
def merge_step (acc : MergeAcc) (item : String × String × PdfBytes) : MergeAcc :=
  match PdfReader_pages item.2.2 with
  | .ok pages =>
      { acc with writer := acc.writer ++ pages, successful := acc.successful + 1 }
  | .error .pdfReadError =>
      { acc with errors := acc.errors ++ [item.2.1 ++ ": Invalid or corrupted PDF file"] }
  | .error (.otherError msg) =>
      { acc with errors := acc.errors ++ [item.2.1 ++ ": " ++ msg] }

/-- `merge_pdfs_in_memory` (src/app.py lines 70-100). `now` stands for the
ambient state (timestamps, ...) at serialization time; the items are
`(eyf_id, filename, pdf_bytes)` triples. -/
def merge_pdfs_in_memory (now : Nat) (pdf_items : List (String × String × PdfBytes)) :
    Option SerializedPdf × List String :=
  let acc := pdf_items.foldl merge_step { writer := [], successful := 0, errors := [] }
  if acc.successful = 0 then (none, acc.errors)
  else (some { metadata := now, pages := acc.writer }, acc.errors)

/-- The classification built by `match_uploaded_pdfs_to_eyf_ids`
(src/app.py line 51). -/
structure MatchResults where
  matched : List (String × String × PdfBytes)
  missing : List String
  duplicates : List (String × List String)
  deriving DecidableEq

/-- Python's `str.startswith`: the characters of `pre` are an initial segment
of the characters of `s` (case-sensitive, exact character match). -/
def startswith (s pre : String) : Bool :=
  pre.data.isPrefixOf s.data

/-- The per-identifier candidate scan in `match_uploaded_pdfs_to_eyf_ids`
(src/app.py lines 54-57): the uploaded files whose name starts with
the identifier followed by an underscore. -/
def matching_files (uploaded_files : List (String × PdfBytes)) (eyf_id : String) :
    List (String × PdfBytes) :=
  uploaded_files.filter (fun p => startswith p.1 (eyf_id ++ "_"))

/-- One iteration of the loop in `match_uploaded_pdfs_to_eyf_ids`
(src/app.py lines 53-65). -/
def match_step (uploaded_files : List (String × PdfBytes)) (results : MatchResults)
    (eyf_id : String) : MatchResults :=
  match matching_files uploaded_files eyf_id with
  | [] => { results with missing := results.missing ++ [eyf_id] }
  | [(fname, data)] => { results with matched := results.matched ++ [(eyf_id, fname, data)] }
  | files => { results with duplicates := results.duplicates ++ [(eyf_id, files.map Prod.fst)] }

/-- `match_uploaded_pdfs_to_eyf_ids` (src/app.py lines 40-67). -/
def match_uploaded_pdfs_to_eyf_ids (uploaded_files : List (String × PdfBytes))
    (eyf_ids : List String) : MatchResults :=
  eyf_ids.foldl (match_step uploaded_files) { matched := [], missing := [], duplicates := [] }

/-- A spreadsheet cell: empty (pandas `NaN`), text, or a numeric value
(already truncated to an integer, as `astype(int)` truncates floats). -/
inductive Cell where
  | empty
  | str (s : String)
  | num (n : Int)
  deriving DecidableEq, Inhabited

/-- A spreadsheet: its rows of cells in order, title/banner rows included. -/
structure ExcelFile where
  rows : List (List Cell)
  deriving DecidableEq

/-- A parsed dataframe: the rendered column labels and the data rows. -/
structure DataFrame where
  columns : List String
  data : List (List Cell)
  deriving DecidableEq

/-- How pandas renders the cell at position `i` of the header row as a column
label: text cells verbatim, numeric cells as their decimal string, empty cells
as a positional placeholder label. -/
def headerLabel (i : Nat) : Cell → String
  | .empty => "Unnamed: " ++ toString i
  | .str s => s
  | .num n => toString n

/-- `pd.read_excel(excel_file, header=h)`: column labels come from row `h`,
the data is the rows below it. -/
def read_excel (excel_file : ExcelFile) (header : Nat) : DataFrame :=
  { columns := ((excel_file.rows[header]?).getD []).mapIdx headerLabel,
    data := excel_file.rows.drop (header + 1) }

/-- `df[column_name]`: the cells of the named column, rows missing a cell at
that position reading as empty (`NaN`). An absent column reads as empty. -/
def DataFrame.col (df : DataFrame) (column_name : String) : List Cell :=
  match df.columns.indexOf? column_name with
  | none => []
  | some i => df.data.map (fun row => (row[i]?).getD Cell.empty)

/-- `.dropna()`: drop the empty cells. -/
def dropna (cells : List Cell) : List Cell :=
  cells.filter (fun c => c != Cell.empty)

/-- `astype(int)` on one cell: a numeric cell keeps its (truncated) integer
value, a text cell parses as an integer or raises, an empty cell raises. -/
def cellToInt : Cell → Except Unit Int
  | .num n => .ok n
  | .str s =>
      match s.toInt? with
      | some n => .ok n
      | none => .error ()
  | .empty => .error ()

/-- `astype(int)` on a column: coerce every cell or raise. -/
def astype_int (cells : List Cell) : Except Unit (List Int) :=
  cells.mapM cellToInt

/-- The failures of `read_eyf_ids_from_excel`: the missing-column error, the
duplicate-identifier error carrying the values it lists, and the coercion
failure propagated from `astype`. -/
inductive ExtractError where
  | schemaError (column_name : String)
  | duplicateIdentifierError (duplicates : List String)
  | parseError
  deriving DecidableEq

/-- The duplicate scan in `read_eyf_ids_from_excel` (src/app.py line 33): the
distinct values of `eyf_ids` occurring more than once. -/
def find_duplicates (eyf_ids : List String) : List String :=
  eyf_ids.dedup.filter (fun id => eyf_ids.count id > 1)

/-- The dataframe `read_eyf_ids_from_excel` settles on after the single
header-row fallback (src/app.py lines 19-24): the header-row-0 parse if it has
the named column, otherwise the header-row-1 parse. -/
def chosen_df (excel_file : ExcelFile) (column_name : String) : DataFrame :=
  let df := read_excel excel_file 0
  if column_name ∈ df.columns then df else read_excel excel_file 1

/-- What `read_eyf_ids_from_excel` does once a dataframe with the column in
scope was settled on (src/app.py lines 30-37): drop empty cells, coerce to
integers then to decimal strings, and reject duplicates. -/
def process_located_df (df : DataFrame) (column_name : String) :
    Except ExtractError (List String) :=
  match astype_int (dropna (df.col column_name)) with
  | .error _ => .error .parseError
  | .ok vals =>
      let eyf_ids := vals.map toString
      let duplicates := find_duplicates eyf_ids
      if duplicates.isEmpty then .ok eyf_ids
      else .error (.duplicateIdentifierError duplicates)

/-- `read_eyf_ids_from_excel` (src/app.py lines 14-37): locate the identifier
column with one header-row fallback, then extract, coerce and deduplicate. -/
def read_eyf_ids_from_excel (excel_file : ExcelFile) (column_name : String) :
    Except ExtractError (List String) :=
  let df := chosen_df excel_file column_name
  if column_name ∈ df.columns then process_located_df df column_name
  else .error (.schemaError column_name)

/-- `generate_missing_report` (src/app.py lines 103-128). `now` is the
formatted `datetime.now()` timestamp read when the report is generated. -/
def generate_missing_report (now : String) (missing_ids : List String)
    (duplicates : List (String × List String)) : String :=
  let report := "FERPA Waiver Status Report\n"
  let report := report ++ "Generated: " ++ now ++ "\n"
  let report := report ++ String.mk (List.replicate 50 '=') ++ "\n\n"
  let report :=
    if missing_ids.isEmpty then report
    else
      report ++ "MISSING WAIVERS (" ++ toString missing_ids.length ++ " students)\n"
        ++ String.mk (List.replicate 30 '-') ++ "\n"
        ++ String.join (missing_ids.map (fun eyf_id => "  - EYF ID: " ++ eyf_id ++ "\n"))
        ++ "\n"
  let report :=
    if duplicates.isEmpty then report
    else
      report ++ "DUPLICATE FILES (" ++ toString duplicates.length ++ " students)\n"
        ++ String.mk (List.replicate 30 '-') ++ "\n"
        ++ String.join (duplicates.map (fun p =>
            "  - EYF ID " ++ p.1 ++ ":\n"
              ++ String.join (p.2.map (fun f => "      " ++ f ++ "\n"))))
        ++ "\n"
  if missing_ids.isEmpty && duplicates.isEmpty then
    report ++ "All students have exactly one waiver on file.\n"
  else report

/-! ### Per-item decode vocabulary for the assembler -/

/-- The pages one item contributes to the merged output: its decoded pages,
or none when its decode fails. -/
def decoded_pages (item : String × String × PdfBytes) : List Page :=
  match PdfReader_pages item.2.2 with
  | .ok pages => pages
  | .error _ => []

/-- The error string one item contributes to the error list, if its decode
fails. -/
def item_error (item : String × String × PdfBytes) : Option String :=
  match PdfReader_pages item.2.2 with
  | .ok _ => none
  | .error .pdfReadError => some (item.2.1 ++ ": Invalid or corrupted PDF file")
  | .error (.otherError msg) => some (item.2.1 ++ ": " ++ msg)

/-- Whether an item's bytes decode successfully. -/
def decode_ok (item : String × String × PdfBytes) : Bool :=
  match PdfReader_pages item.2.2 with
  | .ok _ => true
  | .error _ => false

theorem merge_foldl_spec (pdf_items : List (String × String × PdfBytes)) (acc : MergeAcc) :
    pdf_items.foldl merge_step acc =
      { writer := acc.writer ++ pdf_items.flatMap decoded_pages,
        successful := acc.successful + pdf_items.countP decode_ok,
        errors := acc.errors ++ pdf_items.filterMap item_error } := by
  induction pdf_items generalizing acc with
  | nil => simp
  | cons item rest ih =>
    rw [List.foldl_cons, ih]
    cases h : PdfReader_pages item.2.2 with
    | ok pages =>
        simp [merge_step, h, decoded_pages, decode_ok, item_error, List.countP_cons,
          List.append_assoc, Nat.add_comm, Nat.add_assoc, Nat.add_left_comm]
    | error e =>
        cases e <;>
          simp [merge_step, h, decoded_pages, decode_ok, item_error, List.countP_cons,
            List.append_assoc]

/-- Closed form of `merge_pdfs_in_memory`: absent output when nothing decoded,
otherwise the flattened pages; either way the per-item error list. -/
theorem merge_eq (now : Nat) (pdf_items : List (String × String × PdfBytes)) :
    merge_pdfs_in_memory now pdf_items =
      if pdf_items.countP decode_ok = 0 then (none, pdf_items.filterMap item_error)
      else (some { metadata := now, pages := pdf_items.flatMap decoded_pages },
            pdf_items.filterMap item_error) := by
  simp only [merge_pdfs_in_memory, merge_foldl_spec]
  simp only [List.nil_append, Nat.zero_add]

theorem item_error_eq_none_iff (item : String × String × PdfBytes) :
    item_error item = none ↔ decode_ok item = true := by
  unfold item_error decode_ok
  cases h : PdfReader_pages item.2.2 with
  | ok pages => simp
  | error e => cases e <;> simp

theorem filterMap_item_error_length (pdf_items : List (String × String × PdfBytes)) :
    (pdf_items.filterMap item_error).length + pdf_items.countP decode_ok
      = pdf_items.length := by
  induction pdf_items with
  | nil => simp
  | cons item rest ih =>
    cases h : PdfReader_pages item.2.2 with
    | ok pages =>
        simp only [List.filterMap_cons, List.countP_cons, item_error, decode_ok, h]
        simp
        omega
    | error e =>
        cases e <;>
          · simp only [List.filterMap_cons, List.countP_cons, item_error, decode_ok, h]
            simp
            omega

theorem filterMap_item_error_length_of_all_fail
    (pdf_items : List (String × String × PdfBytes))
    (h : ∀ item ∈ pdf_items, decode_ok item = false) :
    (pdf_items.filterMap item_error).length = pdf_items.length := by
  have hz : pdf_items.countP decode_ok = 0 := by
    rw [List.countP_eq_zero]
    intro a ha
    simp [h a ha]
  have := filterMap_item_error_length pdf_items
  omega

/-! ### Claim theorems about the assembler -/

/-- Claim C3: the assembler's output is absent iff zero items decoded
successfully: an empty matched list gives (absent, empty error list), an
all-undecodable list gives (absent, error list equal in length to the input),
and any list with a decodable item gives output bytes together with the
accumulated error list. -/
theorem merge_output_absent_iff_no_success (now : Nat)
    (pdf_items : List (String × String × PdfBytes)) :
    ((merge_pdfs_in_memory now pdf_items).1 = none
        ↔ pdf_items.countP decode_ok = 0)
    ∧ merge_pdfs_in_memory now [] = (none, [])
    ∧ ((∀ item ∈ pdf_items, decode_ok item = false) →
        (merge_pdfs_in_memory now pdf_items).1 = none
        ∧ (merge_pdfs_in_memory now pdf_items).2.length = pdf_items.length)
    ∧ ((∃ item ∈ pdf_items, decode_ok item = true) →
        ∃ out, (merge_pdfs_in_memory now pdf_items).1 = some out
          ∧ (merge_pdfs_in_memory now pdf_items).2
              = pdf_items.filterMap item_error) := by
  refine ⟨?_, by simp [merge_eq], ?_, ?_⟩
  · rw [merge_eq]
    by_cases h : pdf_items.countP decode_ok = 0 <;> simp [h]
  · intro h
    have hz : pdf_items.countP decode_ok = 0 := by
      rw [List.countP_eq_zero]
      intro a ha
      simp [h a ha]
    rw [merge_eq]
    simp [hz, filterMap_item_error_length_of_all_fail pdf_items h]
  · rintro ⟨item, hmem, hok⟩
    have hz : pdf_items.countP decode_ok ≠ 0 := by
      have : 0 < pdf_items.countP decode_ok := List.countP_pos_iff.mpr ⟨item, hmem, hok⟩
      omega
    rw [merge_eq]
    simp [hz]

theorem merge_output_absent_iff_no_success_witness :
    (merge_pdfs_in_memory 0 [("1", "a.pdf", PdfBytes.corrupt)]).1 = none
    ∧ (merge_pdfs_in_memory 0 [("1", "a.pdf", PdfBytes.corrupt)]).2.length
        = [("1", "a.pdf", PdfBytes.corrupt)].length :=
  (merge_output_absent_iff_no_success 0 [("1", "a.pdf", PdfBytes.corrupt)]).2.2.1
    (by decide)

/-- Claim C4 as stated is false at a concrete input: for a corrupt item named
"c.pdf" the code emits the error string "c.pdf: Invalid or corrupted PDF
file", not the claimed malformed-document form "c.pdf: invalid or corrupted
document". -/
theorem merge_error_text_counterexample :
    (merge_pdfs_in_memory 0
        [("1", "c.pdf", PdfBytes.corrupt), ("2", "v.pdf", PdfBytes.valid [0])]).2
      = ["c.pdf: Invalid or corrupted PDF file"]
    ∧ ["c.pdf: Invalid or corrupted PDF file"]
      ≠ ["c.pdf: invalid or corrupted document"] :=
  ⟨rfl, by decide⟩

/-- Claim C4 (amended): the assembler never raises for a per-item decode
failure: each undecodable item contributes exactly one error string naming it
("{name}: Invalid or corrupted PDF file" for the codec's malformed-file
error, "{name}: {message}" for any other failure) and processing continues,
so [valid1, corrupt, valid2] with single-page valid documents yields a 2-page
output (valid1's page then valid2's page) and exactly one error naming the
corrupt item. -/
theorem merge_tolerates_item_failures (now : Nat)
    (pdf_items : List (String × String × PdfBytes)) :
    ((merge_pdfs_in_memory now pdf_items).2 = pdf_items.filterMap item_error)
    ∧ (∀ item ∈ pdf_items, decode_ok item = false →
        item_error item = some (item.2.1 ++ ": Invalid or corrupted PDF file")
        ∨ ∃ msg, item_error item = some (item.2.1 ++ ": " ++ msg))
    ∧ (∀ (i1 i2 i3 n1 n2 n3 : String) (p q : Page),
        merge_pdfs_in_memory now
            [(i1, n1, PdfBytes.valid [p]), (i2, n2, PdfBytes.corrupt),
             (i3, n3, PdfBytes.valid [q])]
          = (some { metadata := now, pages := [p, q] },
             [n2 ++ ": Invalid or corrupted PDF file"])) := by
  refine ⟨?_, ?_, ?_⟩
  · rw [merge_eq]
    by_cases h : pdf_items.countP decode_ok = 0 <;> simp [h]
  · intro item _ hfail
    unfold item_error
    unfold decode_ok at hfail
    cases h : PdfReader_pages item.2.2 with
    | ok pages => rw [h] at hfail; simp at hfail
    | error e =>
        cases e with
        | pdfReadError => left; rfl
        | otherError msg => right; exact ⟨msg, rfl⟩
  · intro i1 i2 i3 n1 n2 n3 p q
    rfl

theorem merge_tolerates_item_failures_witness :
    item_error ("2", "c.pdf", PdfBytes.corrupt)
        = some ("c.pdf" ++ ": Invalid or corrupted PDF file")
    ∨ ∃ msg, item_error ("2", "c.pdf", PdfBytes.corrupt)
        = some ("c.pdf" ++ ": " ++ msg) :=
  (merge_tolerates_item_failures 0 [("2", "c.pdf", PdfBytes.corrupt)]).2.1
    ("2", "c.pdf", PdfBytes.corrupt) (by decide) (by decide)

/-- Claim C5: the assembler's output page sequence is the flattening, in list
order, of each successfully decoded item's pages in that document's internal
order — no reordering, no deduplication; items of 2 and 3 pages yield a
5-page output, pages 0-1 from the first item and pages 2-4 from the second. -/
theorem merge_pages_flatten_in_order (now : Nat)
    (pdf_items : List (String × String × PdfBytes)) :
    (∀ out, (merge_pdfs_in_memory now pdf_items).1 = some out →
        out.pages = pdf_items.flatMap decoded_pages)
    ∧ (∀ (idA idB nA nB : String) (a1 a2 b1 b2 b3 : Page),
        merge_pdfs_in_memory now
            [(idA, nA, PdfBytes.valid [a1, a2]), (idB, nB, PdfBytes.valid [b1, b2, b3])]
          = (some { metadata := now, pages := [a1, a2, b1, b2, b3] }, [])) := by
  refine ⟨?_, ?_⟩
  · intro out hout
    rw [merge_eq] at hout
    by_cases h : pdf_items.countP decode_ok = 0
    · simp [h] at hout
    · simp [h] at hout
      rw [← hout]
  · intro idA idB nA nB a1 a2 b1 b2 b3
    rfl

theorem merge_pages_flatten_in_order_witness :
    ({ metadata := 0, pages := [5, 6] } : SerializedPdf).pages
      = [(("1" : String), ("1_x.pdf" : String), PdfBytes.valid [5, 6])].flatMap
          decoded_pages :=
  (merge_pages_flatten_in_order 0 [("1", "1_x.pdf", PdfBytes.valid [5, 6])]).1
    { metadata := 0, pages := [5, 6] } (by decide)

/-- Claim C8: assembly is idempotent over page content: two runs on the same
matched list with the same byte contents produce identical page content and
identical error lists, whatever serialization-time metadata each run embeds. -/
theorem merge_page_content_run_independent (t1 t2 : Nat)
    (pdf_items : List (String × String × PdfBytes)) :
    (merge_pdfs_in_memory t1 pdf_items).1.map SerializedPdf.pages
        = (merge_pdfs_in_memory t2 pdf_items).1.map SerializedPdf.pages
    ∧ (merge_pdfs_in_memory t1 pdf_items).2 = (merge_pdfs_in_memory t2 pdf_items).2 := by
  rw [merge_eq, merge_eq]
  by_cases h : pdf_items.countP decode_ok = 0 <;> simp [h]

/-- Claim C10: every item given to the assembler is accounted for exactly
once: the number of error strings plus the number of successfully decoded
items equals the length of the input list; an item decodes successfully iff
it contributes no error, and a failing item contributes no pages. -/
theorem merge_accounts_every_item_once (now : Nat)
    (pdf_items : List (String × String × PdfBytes)) :
    (merge_pdfs_in_memory now pdf_items).2.length + pdf_items.countP decode_ok
        = pdf_items.length
    ∧ (∀ item : String × String × PdfBytes, (item_error item).isNone = decode_ok item)
    ∧ (∀ item : String × String × PdfBytes,
        decoded_pages item = [] ∨ item_error item = none) := by
  refine ⟨?_, ?_, ?_⟩
  · have h2 : (merge_pdfs_in_memory now pdf_items).2 = pdf_items.filterMap item_error := by
      rw [merge_eq]
      by_cases h : pdf_items.countP decode_ok = 0 <;> simp [h]
    rw [h2]
    exact filterMap_item_error_length pdf_items
  · intro item
    unfold item_error decode_ok
    cases h : PdfReader_pages item.2.2 with
    | ok pages => simp
    | error e => cases e <;> simp
  · intro item
    unfold item_error decoded_pages
    cases h : PdfReader_pages item.2.2 with
    | ok pages => simp
    | error e => cases e <;> simp

/-! ### Structure of the matcher's fold -/

theorem match_foldl_length (uploaded_files : List (String × PdfBytes))
    (eyf_ids : List String) (init : MatchResults) :
    ((eyf_ids.foldl (match_step uploaded_files) init).matched).length
      + ((eyf_ids.foldl (match_step uploaded_files) init).missing).length
      + ((eyf_ids.foldl (match_step uploaded_files) init).duplicates).length
      = init.matched.length + init.missing.length + init.duplicates.length
        + eyf_ids.length := by
  induction eyf_ids generalizing init with
  | nil => simp
  | cons id0 rest ih =>
    rw [List.foldl_cons, ih]
    rcases h : matching_files uploaded_files id0 with _ | ⟨⟨f, d⟩, _ | ⟨y, tail⟩⟩ <;>
      simp [match_step, h] <;> omega

theorem match_foldl_count (uploaded_files : List (String × PdfBytes))
    (eyf_ids : List String) (init : MatchResults) (id : String) :
    ((eyf_ids.foldl (match_step uploaded_files) init).matched.countP (fun t => t.1 == id))
      + (eyf_ids.foldl (match_step uploaded_files) init).missing.count id
      + ((eyf_ids.foldl (match_step uploaded_files) init).duplicates.countP
          (fun p => p.1 == id))
      = init.matched.countP (fun t => t.1 == id) + init.missing.count id
        + init.duplicates.countP (fun p => p.1 == id) + eyf_ids.count id := by
  induction eyf_ids generalizing init with
  | nil => simp
  | cons id0 rest ih =>
    rw [List.foldl_cons, ih, List.count_cons]
    rcases h : matching_files uploaded_files id0 with _ | ⟨⟨f, d⟩, _ | ⟨y, tail⟩⟩ <;>
      simp only [match_step, h] <;>
        by_cases hbe : id0 = id <;>
          simp [hbe, List.count_append, List.countP_append, List.count_cons,
            List.countP_cons] <;> omega

theorem match_foldl_matched_mem (uploaded_files : List (String × PdfBytes))
    (eyf_ids : List String) (init : MatchResults) (t : String × String × PdfBytes)
    (ht : t ∈ (eyf_ids.foldl (match_step uploaded_files) init).matched) :
    t ∈ init.matched ∨ matching_files uploaded_files t.1 = [(t.2.1, t.2.2)] := by
  induction eyf_ids generalizing init with
  | nil => exact .inl ht
  | cons id0 rest ih =>
    rw [List.foldl_cons] at ht
    rcases h : matching_files uploaded_files id0 with _ | ⟨⟨f, d⟩, _ | ⟨y, tail⟩⟩
    · rcases ih _ ht with hmem | hq
      · left
        simpa [match_step, h] using hmem
      · exact .inr hq
    · rcases ih _ ht with hmem | hq
      · have hmem' : t ∈ init.matched ++ [(id0, f, d)] := by
          simpa [match_step, h] using hmem
        rcases List.mem_append.mp hmem' with h1 | h2
        · exact .inl h1
        · right
          have ht' : t = (id0, f, d) := by simpa using h2
          subst ht'
          simpa using h
      · exact .inr hq
    · rcases ih _ ht with hmem | hq
      · left
        simpa [match_step, h] using hmem
      · exact .inr hq

theorem match_foldl_duplicates_mem (uploaded_files : List (String × PdfBytes))
    (eyf_ids : List String) (init : MatchResults) (p : String × List String)
    (hp : p ∈ (eyf_ids.foldl (match_step uploaded_files) init).duplicates) :
    p ∈ init.duplicates
      ∨ (p.2 = (matching_files uploaded_files p.1).map Prod.fst
          ∧ 2 ≤ (matching_files uploaded_files p.1).length) := by
  induction eyf_ids generalizing init with
  | nil => exact .inl hp
  | cons id0 rest ih =>
    rw [List.foldl_cons] at hp
    rcases h : matching_files uploaded_files id0 with _ | ⟨⟨f, d⟩, _ | ⟨y, tail⟩⟩
    · rcases ih _ hp with hmem | hq
      · left
        simpa [match_step, h] using hmem
      · exact .inr hq
    · rcases ih _ hp with hmem | hq
      · left
        simpa [match_step, h] using hmem
      · exact .inr hq
    · rcases ih _ hp with hmem | hq
      · have hmem' : p ∈ init.duplicates
            ++ [(id0, ((f, d) :: y :: tail).map Prod.fst)] := by
          simpa [match_step, h] using hmem
        rcases List.mem_append.mp hmem' with h1 | h2
        · exact .inl h1
        · right
          have hp' : p = (id0, ((f, d) :: y :: tail).map Prod.fst) := by
            simpa using h2
          subst hp'
          constructor
          · simp [h]
          · simp [h]
      · exact .inr hq

/-! ### Claim theorems about the matcher -/

/-- Claim C1: for every identifier list and candidate pool, the matcher's
classification places each identifier (occurrence) in exactly one of the
matched, missing, and duplicates buckets, and
|matched| + |missing| + |duplicates| = |identifiers|. -/
theorem match_classification_partition (uploaded_files : List (String × PdfBytes))
    (eyf_ids : List String) :
    ((match_uploaded_pdfs_to_eyf_ids uploaded_files eyf_ids).matched.length
      + (match_uploaded_pdfs_to_eyf_ids uploaded_files eyf_ids).missing.length
      + (match_uploaded_pdfs_to_eyf_ids uploaded_files eyf_ids).duplicates.length
      = eyf_ids.length)
    ∧ (∀ id : String,
        (match_uploaded_pdfs_to_eyf_ids uploaded_files eyf_ids).matched.countP
            (fun t => t.1 == id)
          + (match_uploaded_pdfs_to_eyf_ids uploaded_files eyf_ids).missing.count id
          + (match_uploaded_pdfs_to_eyf_ids uploaded_files eyf_ids).duplicates.countP
              (fun p => p.1 == id)
          = eyf_ids.count id) := by
  constructor
  · have := match_foldl_length uploaded_files eyf_ids ⟨[], [], []⟩
    simpa [match_uploaded_pdfs_to_eyf_ids] using this
  · intro id
    have := match_foldl_count uploaded_files eyf_ids ⟨[], [], []⟩ id
    simpa [match_uploaded_pdfs_to_eyf_ids] using this

/-- Claim C2: matching uses the exact, case-sensitive prefix "{identifier}_":
a candidate is selected for an identifier iff its name starts with the
identifier followed immediately by an underscore; every matched or duplicate
association satisfies this; and identifier "12" never matches a candidate
named "123_x.pdf". -/
theorem match_prefix_exact (uploaded_files : List (String × PdfBytes))
    (eyf_ids : List String) :
    (∀ (fname : String) (data : PdfBytes) (eyf_id : String),
        (fname, data) ∈ matching_files uploaded_files eyf_id
          ↔ ((fname, data) ∈ uploaded_files
              ∧ startswith fname (eyf_id ++ "_") = true))
    ∧ (∀ (eyf_id fname : String) (data : PdfBytes),
        (eyf_id, fname, data)
            ∈ (match_uploaded_pdfs_to_eyf_ids uploaded_files eyf_ids).matched
          → startswith fname (eyf_id ++ "_") = true)
    ∧ (∀ (eyf_id : String) (names : List String) (fname : String),
        (eyf_id, names)
            ∈ (match_uploaded_pdfs_to_eyf_ids uploaded_files eyf_ids).duplicates
          → fname ∈ names → startswith fname (eyf_id ++ "_") = true)
    ∧ startswith "123_x.pdf" ("12" ++ "_") = false
    ∧ (∀ data : PdfBytes,
        ("12", "123_x.pdf", data)
          ∉ (match_uploaded_pdfs_to_eyf_ids uploaded_files eyf_ids).matched)
    ∧ (∀ names : List String,
        ("12", names) ∈ (match_uploaded_pdfs_to_eyf_ids uploaded_files eyf_ids).duplicates
          → "123_x.pdf" ∉ names) := by
  have hmm : ∀ (fname : String) (data : PdfBytes) (eyf_id : String),
      (fname, data) ∈ matching_files uploaded_files eyf_id
        ↔ ((fname, data) ∈ uploaded_files
            ∧ startswith fname (eyf_id ++ "_") = true) := by
    intro fname data eyf_id
    simp [matching_files, List.mem_filter]
  have hmatched : ∀ (eyf_id fname : String) (data : PdfBytes),
      (eyf_id, fname, data)
          ∈ (match_uploaded_pdfs_to_eyf_ids uploaded_files eyf_ids).matched
        → startswith fname (eyf_id ++ "_") = true := by
    intro eyf_id fname data hmem
    simp only [match_uploaded_pdfs_to_eyf_ids] at hmem
    rcases match_foldl_matched_mem uploaded_files eyf_ids ⟨[], [], []⟩ _ hmem with h0 | hq
    · simp at h0
    · have hin : (fname, data) ∈ matching_files uploaded_files eyf_id := by
        rw [hq]
        simp
      exact ((hmm fname data eyf_id).mp hin).2
  have hdup : ∀ (eyf_id : String) (names : List String) (fname : String),
      (eyf_id, names)
          ∈ (match_uploaded_pdfs_to_eyf_ids uploaded_files eyf_ids).duplicates
        → fname ∈ names → startswith fname (eyf_id ++ "_") = true := by
    intro eyf_id names fname hmem hf
    simp only [match_uploaded_pdfs_to_eyf_ids] at hmem
    rcases match_foldl_duplicates_mem uploaded_files eyf_ids ⟨[], [], []⟩ _ hmem
      with h0 | ⟨hq, _⟩
    · simp at h0
    · have hq' : names = List.map Prod.fst (matching_files uploaded_files eyf_id) := hq
      rw [hq'] at hf
      rcases List.mem_map.mp hf with ⟨⟨f2, d2⟩, hmem2, hfe⟩
      cases hfe
      exact ((hmm _ d2 eyf_id).mp hmem2).2
  refine ⟨hmm, hmatched, hdup, by decide, ?_, ?_⟩
  · intro data hmem
    exact absurd (hmatched "12" "123_x.pdf" data hmem) (by decide)
  · intro names hmem hf
    exact absurd (hdup "12" names "123_x.pdf" hmem hf) (by decide)

theorem match_prefix_exact_witness :
    startswith "12_x.pdf" ("12" ++ "_") = true :=
  (match_prefix_exact [("12_x.pdf", PdfBytes.corrupt)] ["12"]).2.1 "12" "12_x.pdf"
    PdfBytes.corrupt (by decide)

/-! ### Structure of the extractor -/

theorem mem_find_duplicates (eyf_ids : List String) (v : String) :
    v ∈ find_duplicates eyf_ids ↔ 2 ≤ eyf_ids.count v := by
  unfold find_duplicates
  simp only [List.mem_filter, List.mem_dedup, decide_eq_true_eq]
  constructor
  · rintro ⟨_, hc⟩
    omega
  · intro h2
    exact ⟨List.count_pos_iff.mp (by omega), by omega⟩

theorem nodup_find_duplicates (eyf_ids : List String) :
    (find_duplicates eyf_ids).Nodup :=
  (List.nodup_dedup eyf_ids).filter _

theorem process_located_df_no_schema_failure (df : DataFrame) (column_name c : String) :
    process_located_df df column_name ≠ .error (.schemaError c) := by
  unfold process_located_df
  cases h : astype_int (dropna (df.col column_name)) with
  | error e => simp
  | ok vals =>
      by_cases hie : (find_duplicates (vals.map toString)).isEmpty <;> simp [hie]

/-! ### Claim theorems about the extractor -/

/-- Claim C6: for every identifier source containing at least one value that
occurs more than once after coercion to canonical decimal string (and whose
identifier column is located and coercible), extraction fails with the
duplicate-identifier error listing exactly the distinct duplicated values and
none of the non-duplicated ones. -/
theorem extract_rejects_duplicates (excel_file : ExcelFile) (column_name : String)
    (vals : List Int)
    (hcol : column_name ∈ (chosen_df excel_file column_name).columns)
    (hvals : astype_int (dropna ((chosen_df excel_file column_name).col column_name))
        = .ok vals)
    (hdup : ∃ v, 2 ≤ (vals.map toString).count v) :
    ∃ ds, read_eyf_ids_from_excel excel_file column_name
        = .error (.duplicateIdentifierError ds)
      ∧ ds.Nodup
      ∧ (∀ v, v ∈ ds ↔ 2 ≤ (vals.map toString).count v) := by
  obtain ⟨v0, hv0⟩ := hdup
  have hvmem : v0 ∈ find_duplicates (vals.map toString) :=
    (mem_find_duplicates _ v0).mpr hv0
  have hempty : (find_duplicates (vals.map toString)).isEmpty = false := by
    cases hfd : find_duplicates (vals.map toString) with
    | nil => rw [hfd] at hvmem; simp at hvmem
    | cons a l => simp
  refine ⟨find_duplicates (vals.map toString), ?_, nodup_find_duplicates _,
    fun v => mem_find_duplicates _ v⟩
  unfold read_eyf_ids_from_excel
  simp only [hcol, if_true]
  unfold process_located_df
  rw [hvals]
  simp [hempty]

theorem extract_rejects_duplicates_witness :
    ∃ ds, read_eyf_ids_from_excel
          ⟨[[Cell.str "EYFID"], [Cell.num 3], [Cell.num 3], [Cell.num 4]]⟩ "EYFID"
        = .error (.duplicateIdentifierError ds)
      ∧ ds.Nodup
      ∧ (∀ v, v ∈ ds ↔ 2 ≤ (([3, 3, 4] : List Int).map toString).count v) :=
  extract_rejects_duplicates
    ⟨[[Cell.str "EYFID"], [Cell.num 3], [Cell.num 3], [Cell.num 4]]⟩ "EYFID"
    [3, 3, 4] (by decide) (by decide) ⟨"3", by decide⟩

/-- Claim C7: extraction locates the identifier column with exactly one
header-row fallback: with the column in the first-row header, that parse is
processed; absent there but present when the header is read from the second
row, the single re-parse is processed and no schema failure is possible;
still absent after that one retry, extraction fails with the schema error
naming the expected column, whatever later rows contain. -/
theorem extract_header_fallback_once (excel_file : ExcelFile) (column_name : String) :
    (column_name ∈ (read_excel excel_file 0).columns →
        read_eyf_ids_from_excel excel_file column_name
          = process_located_df (read_excel excel_file 0) column_name)
    ∧ (column_name ∉ (read_excel excel_file 0).columns →
        column_name ∈ (read_excel excel_file 1).columns →
          read_eyf_ids_from_excel excel_file column_name
            = process_located_df (read_excel excel_file 1) column_name
          ∧ ∀ c, read_eyf_ids_from_excel excel_file column_name
              ≠ .error (.schemaError c))
    ∧ (column_name ∉ (read_excel excel_file 0).columns →
        column_name ∉ (read_excel excel_file 1).columns →
          read_eyf_ids_from_excel excel_file column_name
            = .error (.schemaError column_name)) := by
  refine ⟨?_, ?_, ?_⟩
  · intro h0
    unfold read_eyf_ids_from_excel chosen_df
    simp [h0]
  · intro h0 h1
    have heq : read_eyf_ids_from_excel excel_file column_name
        = process_located_df (read_excel excel_file 1) column_name := by
      unfold read_eyf_ids_from_excel chosen_df
      simp [h0, h1]
    refine ⟨heq, fun c => ?_⟩
    rw [heq]
    exact process_located_df_no_schema_failure _ _ _
  · intro h0 h1
    unfold read_eyf_ids_from_excel chosen_df
    simp [h0, h1]

theorem extract_header_fallback_once_witness :
    read_eyf_ids_from_excel
        ⟨[[Cell.str "Roster Export"], [Cell.str "EYFID"], [Cell.num 7], [Cell.num 8]]⟩
        "EYFID"
      = process_located_df
          (read_excel
            ⟨[[Cell.str "Roster Export"], [Cell.str "EYFID"], [Cell.num 7], [Cell.num 8]]⟩ 1)
          "EYFID"
    ∧ ∀ c, read_eyf_ids_from_excel
        ⟨[[Cell.str "Roster Export"], [Cell.str "EYFID"], [Cell.num 7], [Cell.num 8]]⟩
        "EYFID"
      ≠ .error (.schemaError c) :=
  (extract_header_fallback_once
    ⟨[[Cell.str "Roster Export"], [Cell.str "EYFID"], [Cell.num 7], [Cell.num 8]]⟩
    "EYFID").2.1 (by decide) (by decide)

/-! ### Structure of the reporter -/

theorem string_append_assoc (a b c : String) : a ++ b ++ c = a ++ (b ++ c) := by
  rcases a with ⟨la⟩
  rcases b with ⟨lb⟩
  rcases c with ⟨lc⟩
  show String.mk (la ++ lb ++ lc) = String.mk (la ++ (lb ++ lc))
  rw [List.append_assoc]

theorem string_append_empty (a : String) : a ++ "" = a := by
  rcases a with ⟨la⟩
  show String.mk (la ++ []) = String.mk la
  rw [List.append_nil]

/-- The report text that follows the timestamp line, as a function of the
missing and duplicate lists alone. -/
def report_sections (missing_ids : List String)
    (duplicates : List (String × List String)) : String :=
  String.mk (List.replicate 50 '=') ++ "\n\n"
    ++ (if missing_ids.isEmpty then ""
        else "MISSING WAIVERS (" ++ toString missing_ids.length ++ " students)\n"
          ++ String.mk (List.replicate 30 '-') ++ "\n"
          ++ String.join (missing_ids.map (fun eyf_id => "  - EYF ID: " ++ eyf_id ++ "\n"))
          ++ "\n")
    ++ (if duplicates.isEmpty then ""
        else "DUPLICATE FILES (" ++ toString duplicates.length ++ " students)\n"
          ++ String.mk (List.replicate 30 '-') ++ "\n"
          ++ String.join (duplicates.map (fun p =>
              "  - EYF ID " ++ p.1 ++ ":\n"
                ++ String.join (p.2.map (fun f => "      " ++ f ++ "\n"))))
          ++ "\n")
    ++ (if missing_ids.isEmpty && duplicates.isEmpty
        then "All students have exactly one waiver on file.\n" else "")

/-! ### Claim theorems about the reporter -/

/-- Claim C9 as stated is false at a concrete input: two invocations with
identical (empty) missing and duplicates inputs but different generation
times produce different report text, because the report embeds the
generation timestamp. -/
theorem report_text_differs_across_times_counterexample :
    generate_missing_report "2025-01-01 10:00:00" [] []
      ≠ generate_missing_report "2025-01-02 10:00:00" [] [] := by
  decide

/-- Claim C9 (amended): the reporter is a pure, total function of its
(missing, duplicates) inputs and the generation timestamp: it never fails,
any two invocations with identical missing, duplicates, and timestamp
produce identical report text, and the inputs' contribution is independent
of the timestamp (the text factors into a fixed header, the timestamp line,
and sections determined by the inputs alone). -/
theorem report_function_of_inputs_and_time (now : String) (missing_ids : List String)
    (duplicates : List (String × List String)) :
    generate_missing_report now missing_ids duplicates
      = "FERPA Waiver Status Report\n" ++ ("Generated: " ++ now ++ "\n")
          ++ report_sections missing_ids duplicates := by
  simp only [generate_missing_report, report_sections]
  split_ifs <;> simp only [string_append_assoc, string_append_empty]

end FerpaApp
